import Mathlib

/-!
Verification of the client-window state engine of the openbox window manager
(src/src/client.hh).  The repository ships the class declaration only; the
inline accessors in the header are embedded directly from the source, and the
operation bodies that the header merely declares are modelled from the
specification (each such definition carries a doc comment saying so).

Machine integers of the C++ source are modelled as `Int`; the only divisions
performed are on nonnegative operands, where C integer division and Euclidean
division agree.  Bitmask-valued hints are modelled as `Nat`.
-/

namespace Openbox

/-- The possible stacking layers of a client window, from `Client::StackLayer`
(src/src/client.hh lines 75-85). -/
inductive StackLayer where
  | Layer_Icon
  | Layer_Desktop
  | Layer_Below
  | Layer_Normal
  | Layer_Above
  | Layer_Top
  | Layer_Fullscreen
  | Layer_Internal
deriving DecidableEq, Repr

/-- The possible window types, from `Client::WindowType`
(src/src/client.hh lines 94-102). -/
inductive WindowType where
  | Type_Desktop
  | Type_Dock
  | Type_Toolbar
  | Type_Menu
  | Type_Utility
  | Type_Splash
  | Type_Dialog
  | Type_Normal
deriving DecidableEq, Repr

/-- Corners of the client window, used for anchor positions, from
`Client::Corner` (src/src/client.hh lines 88-91). -/
inductive Corner where
  | TopLeft
  | TopRight
  | BottomLeft
  | BottomRight
deriving DecidableEq, Repr

/-- A width/height pair (`otk::Size`). -/
@[ext]
structure Size where
  width : Int
  height : Int
deriving DecidableEq, Repr

/-- A position and size (`otk::Rect`). -/
@[ext]
structure Rect where
  x : Int
  y : Int
  width : Int
  height : Int
deriving DecidableEq, Repr

/-- The MWM hints, from `struct MwmHints` (src/src/client.hh lines 42-48). -/
structure MwmHints where
  flags : Nat
  functions : Nat
  decorations : Nat
deriving DecidableEq, Repr

/-- Bit value of `Client::Func_Resize` (src/src/client.hh line 129). -/
def Func_Resize : Nat := 1
/-- Bit value of `Client::Func_Move` (src/src/client.hh line 130). -/
def Func_Move : Nat := 2
/-- Bit value of `Client::Func_Iconify` (src/src/client.hh line 131). -/
def Func_Iconify : Nat := 4
/-- Bit value of `Client::Func_Maximize` (src/src/client.hh line 132). -/
def Func_Maximize : Nat := 8
/-- Bit value of `Client::Func_Shade` (src/src/client.hh line 133). -/
def Func_Shade : Nat := 16
/-- Bit value of `Client::Func_Fullscreen` (src/src/client.hh line 134). -/
def Func_Fullscreen : Nat := 32
/-- Bit value of `Client::Func_Close` (src/src/client.hh line 135). -/
def Func_Close : Nat := 64

/-- Bit value of `Client::MwmFlag_Functions` (src/src/client.hh line 105). -/
def MwmFlag_Functions : Nat := 1
/-- Bit value of `Client::MwmFunc_All` (src/src/client.hh line 110). -/
def MwmFunc_All : Nat := 1
/-- Bit value of `Client::MwmFunc_Resize` (src/src/client.hh line 111). -/
def MwmFunc_Resize : Nat := 2
/-- Bit value of `Client::MwmFunc_Move` (src/src/client.hh line 112). -/
def MwmFunc_Move : Nat := 4
/-- Bit value of `Client::MwmFunc_Iconify` (src/src/client.hh line 113). -/
def MwmFunc_Iconify : Nat := 8
/-- Bit value of `Client::MwmFunc_Maximize` (src/src/client.hh line 114). -/
def MwmFunc_Maximize : Nat := 16

/-- The state of a managed client window: the fields of `class Client`
(src/src/client.hh lines 170-346) that the verified operations touch.
Aspect ratios (`float` in the source) are modelled as rationals. -/
structure Client where
  _type : WindowType
  _title : String
  _icon_title : String
  _area : Rect
  _saved_area : Rect
  _min_ratio : Rat
  _max_ratio : Rat
  _min_size : Size
  _max_size : Size
  _size_inc : Size
  _base_size : Size
  _mwmhints : MwmHints
  _can_focus : Bool
  _urgent : Bool
  _focus_notify : Bool
  _focused : Bool
  _modal : Bool
  _shaded : Bool
  _iconic : Bool
  _max_vert : Bool
  _max_horz : Bool
  _skip_pager : Bool
  _skip_taskbar : Bool
  _fullscreen : Bool
  _above : Bool
  _below : Bool
  _layer : StackLayer
  _functions : Nat
deriving DecidableEq, Repr

/-- Accessor `Client::title` (src/src/client.hh line 551): returns `_title`. -/
def Client.title (c : Client) : String := c._title

/-- Accessor `Client::iconTitle` (src/src/client.hh line 553): the source body
is `return _title;` — it returns the normal title, not `_icon_title`. -/
def Client.iconTitle (c : Client) : String := c._title

/-- Accessor `Client::canFocus` (src/src/client.hh line 564). -/
def Client.canFocus (c : Client) : Bool := c._can_focus

/-- Accessor `Client::layer` (src/src/client.hh line 629). -/
def Client.layer (c : Client) : StackLayer := c._layer

/-- Modelled from the spec: the body of `Client::calcLayer` is absent from src
(declaration only, src/src/client.hh line 388).  Spec section 4.4 gives the
fixed precedence: iconic gives Layer_Icon; else desktop type gives
Layer_Desktop; else fullscreen gives Layer_Fullscreen; else the below flag
gives Layer_Below; else the above flag gives Layer_Above; else a dock or
toolbar always-on-top type gives Layer_Top; else Layer_Normal. -/
def calcLayer (c : Client) : StackLayer :=
  if c._iconic then StackLayer.Layer_Icon
  else if c._type = WindowType.Type_Desktop then StackLayer.Layer_Desktop
  else if c._fullscreen then StackLayer.Layer_Fullscreen
  else if c._below then StackLayer.Layer_Below
  else if c._above then StackLayer.Layer_Above
  else if c._type = WindowType.Type_Dock ∨ c._type = WindowType.Type_Toolbar then
    StackLayer.Layer_Top
  else StackLayer.Layer_Normal

/-- Modelled from the spec: the body of `Client::updateIconTitle` is absent
from src (declaration only, src/src/client.hh line 405).  It reads the
icon-title property of the window and stores it in `_icon_title`. -/
def updateIconTitle (c : Client) (prop : String) : Client :=
  { c with _icon_title := prop }

/-- Snap a value down to the nearest multiple of `inc` above `base`
(spec section 4.5).  Operands are nonnegative at every use, where Euclidean
division agrees with the C integer division of the source. -/
def snapDown (base inc v : Int) : Int :=
  base + (v - base) / inc * inc

/-- Modelled from the spec: the aspect-ratio step of `Client::internal_resize`
(spec section 4.5).  A ratio of 0 means unconstrained; otherwise the width or
height — whichever deviates — is adjusted to bring width/height into range,
preferring to preserve the larger dimension. -/
def applyAspect (minr maxr : Rat) (w h : Int) : Size :=
  if minr ≠ 0 ∧ (w : Rat) < minr * (h : Rat) then
    if h ≤ w then { width := w, height := ((w : Rat) / minr).floor }
    else { width := (minr * (h : Rat)).floor, height := h }
  else if maxr ≠ 0 ∧ maxr * (h : Rat) < (w : Rat) then
    if w ≤ h then { width := (maxr * (h : Rat)).floor, height := h }
    else { width := w, height := ((w : Rat) / maxr).floor }
  else { width := w, height := h }

/-- Modelled from the spec: the size pipeline of `Client::internal_resize`,
whose body is absent from src (declaration only, src/src/client.hh line 498).
Spec section 4.5: clamp the requested size to [min, max] per axis, snap down
to the nearest multiple of the size increment above the base size, then apply
the aspect-ratio adjustment. -/
def constrainSize (c : Client) (w h : Int) : Size :=
  let wc := max c._min_size.width (min c._max_size.width w)
  let hc := max c._min_size.height (min c._max_size.height h)
  let ws := snapDown c._base_size.width c._size_inc.width wc
  let hs := snapDown c._base_size.height c._size_inc.height hc
  applyAspect c._min_ratio c._max_ratio ws hs

/-- Modelled from the spec: the body of `Client::internal_resize` is absent
from src (declaration only, src/src/client.hh line 498).  The constrained size
is computed by `constrainSize`; the anchor corner is held fixed and the
opposite corner moves (spec section 4.5). -/
def internal_resize (c : Client) (anchor : Corner) (w h : Int) : Client :=
  let sz := constrainSize c w h
  let nx :=
    match anchor with
    | Corner.TopLeft | Corner.BottomLeft => c._area.x
    | Corner.TopRight | Corner.BottomRight => c._area.x + (c._area.width - sz.width)
  let ny :=
    match anchor with
    | Corner.TopLeft | Corner.TopRight => c._area.y
    | Corner.BottomLeft | Corner.BottomRight => c._area.y + (c._area.height - sz.height)
  { c with _area := { x := nx, y := ny, width := sz.width, height := sz.height } }

/-- Public `Client::resize` (declared at src/src/client.hh line 687), which
delegates to `internal_resize`. -/
def resize (c : Client) (anchor : Corner) (w h : Int) : Client :=
  internal_resize c anchor w h

/-- Modelled from the spec: the body of `Client::maximize` is absent from src
(declaration only, src/src/client.hh line 475).  Spec section 4.1: dir 0 sets
both axes, 1 horizontal, 2 vertical.  On entering with savearea the current
rectangle is snapshotted on the axes being newly maximized, and the area then
fills the usable screen area (minus struts, passed here as `usable`) on the
selected axes.  On leaving, the snapshot is restored on the axes being
unmaximized (savearea has no effect when unmaximizing).  A call whose target
is already satisfied only refreshes geometry. -/
def maximize (c : Client) (mx : Bool) (dir : Nat) (savearea : Bool)
    (usable : Rect) : Client :=
  let doH : Bool := dir == 0 || dir == 1
  let doV : Bool := dir == 0 || dir == 2
  if mx then
    let newH := doH && !c._max_horz
    let newV := doV && !c._max_vert
    let saved : Rect :=
      { x := if savearea && newH then c._area.x else c._saved_area.x
        y := if savearea && newV then c._area.y else c._saved_area.y
        width := if savearea && newH then c._area.width else c._saved_area.width
        height := if savearea && newV then c._area.height else c._saved_area.height }
    let ar : Rect :=
      { x := if doH then usable.x else c._area.x
        y := if doV then usable.y else c._area.y
        width := if doH then usable.width else c._area.width
        height := if doV then usable.height else c._area.height }
    { c with _saved_area := saved, _area := ar,
             _max_horz := c._max_horz || doH, _max_vert := c._max_vert || doV }
  else
    let resH := doH && c._max_horz
    let resV := doV && c._max_vert
    let ar : Rect :=
      { x := if resH then c._saved_area.x else c._area.x
        y := if resV then c._saved_area.y else c._area.y
        width := if resH then c._saved_area.width else c._area.width
        height := if resV then c._saved_area.height else c._area.height }
    { c with _area := ar,
             _max_horz := c._max_horz && !doH, _max_vert := c._max_vert && !doV }

/-- Modelled from the spec: the body of `Client::remaximize` is absent from
src (declaration only, src/src/client.hh line 694).  It re-applies the
maximized state on the currently maximized axes so the geometry adjusts to new
surroundings, without toggling state and without saving the area. -/
def remaximize (c : Client) (usable : Rect) : Client :=
  if c._max_horz && c._max_vert then maximize c true 0 false usable
  else if c._max_horz then maximize c true 1 false usable
  else if c._max_vert then maximize c true 2 false usable
  else c

/-- The action codes of an extended-state client message (spec section 4.1):
Remove is 0, Add is 1, Toggle is 2. -/
inductive StateAction where
  | State_Remove
  | State_Add
  | State_Toggle
deriving DecidableEq, Repr

/-- An attribute name carried by an extended-state client message.  The ten
named state attributes are those of spec section 4.1; `atom_none` models an
absent (zero) data slot and `atom_other` any unrecognized atom. -/
inductive StateAtom where
  | atom_urgent
  | atom_modal
  | atom_maximized_vert
  | atom_maximized_horz
  | atom_shaded
  | atom_skip_taskbar
  | atom_skip_pager
  | atom_fullscreen
  | atom_above
  | atom_below
  | atom_none
  | atom_other (n : Nat)
deriving DecidableEq, Repr

/-- Application of one action code to one boolean flag (spec section 4.1):
Remove clears, Add sets, Toggle flips. -/
def applyAction (a : StateAction) (cur : Bool) : Bool :=
  match a with
  | StateAction.State_Remove => false
  | StateAction.State_Add => true
  | StateAction.State_Toggle => !cur

/-- Reads the boolean flag named by an extended-state attribute; `none` for an
absent or unrecognized atom. -/
def getStateFlag (c : Client) : StateAtom → Option Bool
  | StateAtom.atom_urgent => some c._urgent
  | StateAtom.atom_modal => some c._modal
  | StateAtom.atom_maximized_vert => some c._max_vert
  | StateAtom.atom_maximized_horz => some c._max_horz
  | StateAtom.atom_shaded => some c._shaded
  | StateAtom.atom_skip_taskbar => some c._skip_taskbar
  | StateAtom.atom_skip_pager => some c._skip_pager
  | StateAtom.atom_fullscreen => some c._fullscreen
  | StateAtom.atom_above => some c._above
  | StateAtom.atom_below => some c._below
  | StateAtom.atom_none => none
  | StateAtom.atom_other _ => none

/-- Applies one action to one attribute of the client state.  An absent or
unrecognized atom changes nothing (spec section 4.1: unrecognized attribute
names are rejected silently). -/
def applyStateAtom (c : Client) (a : StateAction) : StateAtom → Client
  | StateAtom.atom_urgent => { c with _urgent := applyAction a c._urgent }
  | StateAtom.atom_modal => { c with _modal := applyAction a c._modal }
  | StateAtom.atom_maximized_vert => { c with _max_vert := applyAction a c._max_vert }
  | StateAtom.atom_maximized_horz => { c with _max_horz := applyAction a c._max_horz }
  | StateAtom.atom_shaded => { c with _shaded := applyAction a c._shaded }
  | StateAtom.atom_skip_taskbar => { c with _skip_taskbar := applyAction a c._skip_taskbar }
  | StateAtom.atom_skip_pager => { c with _skip_pager := applyAction a c._skip_pager }
  | StateAtom.atom_fullscreen => { c with _fullscreen := applyAction a c._fullscreen }
  | StateAtom.atom_above => { c with _above := applyAction a c._above }
  | StateAtom.atom_below => { c with _below := applyAction a c._below }
  | StateAtom.atom_none => c
  | StateAtom.atom_other _ => c

/-- Modelled from the spec: the body of `Client::setState` is absent from src
(declaration only, src/src/client.hh line 382).  It applies the action to the
one or two attributes named in the message data, then recomputes the stacking
layer (spec sections 4.1 and 4.4); the geometry side of the maximize and
fullscreen transitions is modelled by the dedicated operations.  The return
type carries no error channel: an unrecognized request is silently ignored. -/
def setState (c : Client) (a : StateAction) (p1 p2 : StateAtom) : Client :=
  let c1 := applyStateAtom c a p1
  let c2 := applyStateAtom c1 a p2
  { c2 with _layer := calcLayer c2 }

/-- Modelled from the spec: the body of `Client::fullscreen` is absent from
src (declaration only, src/src/client.hh line 453).  Spec section 4.2:
entering saves the current area when requested and fills the screen rectangle
`scr`; it sets only the fullscreen flag, leaving shade and maximize flags
untouched, and the stacking layer is recomputed.  Leaving restores the saved
area.  A call matching the current state changes nothing. -/
def fullscreen_set (c : Client) (fs : Bool) (savearea : Bool) (scr : Rect) : Client :=
  if fs = c._fullscreen then c
  else if fs then
    let c1 := if savearea then { c with _saved_area := c._area } else c
    let c2 := { c1 with _fullscreen := true, _area := scr }
    { c2 with _layer := calcLayer c2 }
  else
    let c1 := { c with _fullscreen := false, _area := c._saved_area }
    { c1 with _layer := calcLayer c1 }

/-- Modelled from the spec: the functions half of
`Client::setupDecorAndFunctions`, whose body is absent from src (declaration
only, src/src/client.hh line 371).  All functions are allowed, restricted by
the MWM function hints when they are given without MwmFunc_All, and resizing
is forced off whenever the minimum size exceeds the maximum size on either
axis (spec section 3 invariants). -/
def setupFunctions (c : Client) : Nat :=
  let limited : Bool :=
    decide (c._mwmhints.flags &&& MwmFlag_Functions ≠ 0 ∧
            c._mwmhints.functions &&& MwmFunc_All = 0)
  let nonResizable : Bool :=
    decide (c._max_size.width < c._min_size.width ∨
            c._max_size.height < c._min_size.height)
  let allowResize : Bool := !limited || decide (c._mwmhints.functions &&& MwmFunc_Resize ≠ 0)
  let allowMove : Bool := !limited || decide (c._mwmhints.functions &&& MwmFunc_Move ≠ 0)
  let allowIconify : Bool := !limited || decide (c._mwmhints.functions &&& MwmFunc_Iconify ≠ 0)
  let allowMax : Bool := !limited || decide (c._mwmhints.functions &&& MwmFunc_Maximize ≠ 0)
  (if allowResize && !nonResizable then Func_Resize else 0) +
  (if allowMove then Func_Move else 0) +
  (if allowIconify then Func_Iconify else 0) +
  (if allowMax && !nonResizable then Func_Maximize else 0) +
  Func_Shade + Func_Fullscreen + Func_Close

/-- Modelled from the spec: `Client::setupDecorAndFunctions` recomputes the
effective functions mask of the client (src/src/client.hh lines 366-371; body
absent from src).  Every hint-update operation that can change the inputs
calls it, so `_functions` always equals `setupFunctions` of the current
hints. -/
def setupDecorAndFunctions (c : Client) : Client :=
  { c with _functions := setupFunctions c }

/-- A node of the relationship graph: the `_transients` list (children) and
`_modal` flag of one client (src/src/client.hh lines 184 and 296). -/
structure RelNode where
  transients : List Nat
  modal : Bool
deriving DecidableEq, Repr

/-- The relationship graph: the entity table keyed by window id, holding the
transient (child) lists and modal flags.  Weak references are ids; a lookup of
an id that is not in the table simply returns nothing (spec section 9). -/
abbrev TGraph : Type := List (Nat × RelNode)

/-- Lookup of a client id in the entity table. -/
def lookupClient : TGraph → Nat → Option RelNode
  | [], _ => none
  | p :: g, i => if p.fst = i then some p.snd else lookupClient g i

/-- The ids present in the entity table. -/
def clientIds (g : TGraph) : List Nat :=
  List.map Prod.fst g

/-- The number of distinct clients of the table not yet visited: the
termination measure of the modal-descendant search. -/
def unvisited (g : TGraph) (visited : List Nat) : Nat :=
  ((clientIds g).toFinset \ visited.toFinset).card

/-- Modelled from the spec: the body of `Client::searchModalTree` is absent
from src (declaration only, src/src/client.hh line 434).  Spec section 4.3:
depth-first search of the transient lists in insertion order for a client
flagged modal, skipping the start node (the `skip` parameter) and any already
visited node, so that cyclic transient data cannot cause an infinite loop.
The worklist `stack` holds the clients still to be examined.  The second
component of the result counts how many distinct clients were expanded. -/
def searchModalTree (g : TGraph) (skip : Nat) (visited : List Nat)
    (stack : List Nat) : Option Nat × Nat :=
  match stack with
  | [] => (none, 0)
  | n :: rest =>
    if hc : n == skip || visited.contains n then
      searchModalTree g skip visited rest
    else
      match hl : lookupClient g n with
      | none => searchModalTree g skip visited rest
      | some node =>
        if node.modal then (some n, 1)
        else
          let r := searchModalTree g skip (n :: visited) (node.transients ++ rest)
          (r.fst, r.snd + 1)
termination_by (unvisited g visited, stack.length)
decreasing_by
  · exact Prod.Lex.right _ (Nat.lt_succ_self _)
  · exact Prod.Lex.right _ (Nat.lt_succ_self _)
  · apply Prod.Lex.left
    have hmem : n ∈ clientIds g := by
      clear hc
      induction g with
      | nil => simp [lookupClient] at hl
      | cons p t ih =>
        by_cases hp : p.fst = n
        · simp [clientIds, hp.symm]
        · simp only [lookupClient, if_neg hp] at hl
          simp [clientIds] at ih ⊢
          exact Or.inr (by simpa [clientIds] using ih hl)
    have hnv : ¬ n ∈ visited := by
      simp at hc
      exact hc.2
    have hsub : (clientIds g).toFinset \ (n :: visited).toFinset ⊆
        (clientIds g).toFinset \ visited.toFinset := by
      apply Finset.sdiff_subset_sdiff (le_refl _)
      simp only [List.toFinset_cons]
      exact Finset.subset_insert _ _
    apply Finset.card_lt_card
    rw [Finset.ssubset_iff_of_subset hsub]
    refine ⟨n, Finset.mem_sdiff.mpr ⟨List.mem_toFinset.mpr hmem, ?_⟩, ?_⟩
    · simpa using hnv
    · simp

/-- Public `Client::findModalChild` (declared at src/src/client.hh line 716):
runs the modal search from the client, skipping the client itself.  Returns
the id of a modal descendant, or nothing. -/
def findModalChild (g : TGraph) (root : Nat) : Option Nat :=
  match lookupClient g root with
  | none => none
  | some node => (searchModalTree g root [root] node.transients).fst

/-- The number of distinct clients expanded by the modal search started from
`root`: the instrumented companion of `findModalChild`. -/
def searchModalVisits (g : TGraph) (root : Nat) : Nat :=
  match lookupClient g root with
  | none => 0
  | some node => (searchModalTree g root [root] node.transients).snd

/-- A malformed relationship graph in which the transient references form a
cycle: client 1 is transient for client 2 and client 2 is transient for
client 1, and client 2 is modal. -/
def cycGraphModal : TGraph :=
  [(1, { transients := [2], modal := false }),
   (2, { transients := [1], modal := true })]

/-- The same cyclic graph with no modal client. -/
def cycGraphPlain : TGraph :=
  [(1, { transients := [2], modal := false }),
   (2, { transients := [1], modal := false })]

/-- Result of an attempt to focus a client: whether the attempt succeeded,
the resulting client state, and whether a focus notification was sent to the
application. -/
structure FocusResult where
  ok : Bool
  client : Client
  notified : Bool
deriving DecidableEq, Repr

/-- Modelled from the spec: the body of `Client::focus` is absent from src
(declaration only, src/src/client.hh line 719).  Spec section 4.1: the
attempt fails, returning false with no state change, when the client cannot
accept input focus or when a modal descendant exists that must be focused
instead; on success it marks the client focused and notifies the application
exactly when the application requested focus-notify. -/
def focus (g : TGraph) (self : Nat) (c : Client) : FocusResult :=
  if !c._can_focus || (findModalChild g self).isSome then
    { ok := false, client := c, notified := false }
  else
    { ok := true, client := { c with _focused := true }, notified := c._focus_notify }

/-- A concrete client state used to instantiate the theorems on explicit
inputs: a normal resizable window with the size hints of the scenario of spec
section 8 (min 100 by 50, increment 10 by 10, base 0 by 0, no aspect
constraint), consistent stacking layer, focusable and focus-notifying. -/
def baseClient : Client :=
  { _type := WindowType.Type_Normal
    _title := "xterm"
    _icon_title := "xterm icon"
    _area := { x := 30, y := 40, width := 200, height := 100 }
    _saved_area := { x := 0, y := 0, width := 0, height := 0 }
    _min_ratio := 0
    _max_ratio := 0
    _min_size := { width := 100, height := 50 }
    _max_size := { width := 2000, height := 1000 }
    _size_inc := { width := 10, height := 10 }
    _base_size := { width := 0, height := 0 }
    _mwmhints := { flags := 0, functions := 0, decorations := 0 }
    _can_focus := true
    _urgent := false
    _focus_notify := true
    _focused := false
    _modal := false
    _shaded := false
    _iconic := false
    _max_vert := false
    _max_horz := false
    _skip_pager := false
    _skip_taskbar := false
    _fullscreen := false
    _above := false
    _below := false
    _layer := StackLayer.Layer_Normal
    _functions := 127 }

/-- A fullscreen client. -/
def layerWitnessA : Client :=
  { baseClient with _fullscreen := true }

/-- The same fullscreen client with a different prior layer value and title:
calcLayer may not distinguish the two. -/
def layerWitnessB : Client :=
  { baseClient with _fullscreen := true, _layer := StackLayer.Layer_Icon,
                    _title := "other" }

/-- An iconified client that is also shaded and vertically maximized. -/
def iconicShadedClient : Client :=
  { baseClient with _iconic := true, _shaded := true, _max_vert := true }

/-- A shaded, vertically maximized client that is not iconified. -/
def shadedMaxVertClient : Client :=
  { baseClient with _shaded := true, _max_vert := true }

/-- A client whose minimum width exceeds its maximum width. -/
def badSizeClient : Client :=
  { baseClient with _min_size := { width := 300, height := 50 },
                    _max_size := { width := 200, height := 1000 } }

/-- A usable screen area used to instantiate the maximize theorems. -/
def usableArea : Rect :=
  { x := 0, y := 0, width := 1280, height := 994 }

/-- A successful lookup means the id is present in the table. -/
theorem mem_clientIds_of_lookup {g : TGraph} {n : Nat} {node : RelNode}
    (hl : lookupClient g n = some node) : n ∈ clientIds g := by
  induction g with
  | nil => simp [lookupClient] at hl
  | cons p t ih =>
    by_cases hp : p.fst = n
    · simp [clientIds, hp.symm]
    · simp only [lookupClient, if_neg hp] at hl
      simp [clientIds]
      exact Or.inr (by simpa [clientIds] using ih hl)

/-- Visiting a fresh client of the table strictly shrinks the unvisited
count. -/
theorem unvisited_cons_lt (g : TGraph) (visited : List Nat) (n : Nat)
    (hmem : n ∈ clientIds g) (hnv : n ∉ visited) :
    unvisited g (n :: visited) < unvisited g visited := by
  apply Finset.card_lt_card
  have hsub : (clientIds g).toFinset \ (n :: visited).toFinset ⊆
      (clientIds g).toFinset \ visited.toFinset := by
    apply Finset.sdiff_subset_sdiff (le_refl _)
    simp only [List.toFinset_cons]
    exact Finset.subset_insert _ _
  rw [Finset.ssubset_iff_of_subset hsub]
  refine ⟨n, Finset.mem_sdiff.mpr ⟨List.mem_toFinset.mpr hmem, ?_⟩, ?_⟩
  · simpa using hnv
  · simp

/-- While a fresh client of the table exists, the unvisited count is
positive. -/
theorem unvisited_pos (g : TGraph) (visited : List Nat) (n : Nat)
    (hmem : n ∈ clientIds g) (hnv : n ∉ visited) : 1 ≤ unvisited g visited := by
  rw [Nat.succ_le_iff]
  apply Finset.card_pos.mpr
  exact ⟨n, Finset.mem_sdiff.mpr ⟨List.mem_toFinset.mpr hmem, by simpa using hnv⟩⟩

/-- The modal search expands at most as many clients as are unvisited: each
distinct reachable client is expanded at most once. -/
theorem searchModalTree_visits_le (g : TGraph) (skip : Nat)
    (visited stack : List Nat) :
    (searchModalTree g skip visited stack).snd ≤ unvisited g visited := by
  induction visited, stack using searchModalTree.induct g skip with
  | case1 visited => simp [searchModalTree]
  | case2 visited n rest hc ih =>
    simp only [searchModalTree, dif_pos hc]
    exact ih
  | case3 visited n rest hc hl ih =>
    simp only [searchModalTree, dif_neg hc]
    split
    · exact ih
    · next node heq => rw [hl] at heq; cases heq
  | case4 visited n rest hc node hl hm =>
    simp only [searchModalTree, dif_neg hc]
    split
    · next heq => rw [hl] at heq; cases heq
    · next node2 heq =>
        rw [hl] at heq
        injection heq with heq2
        subst heq2
        rw [if_pos hm]
        have hnv : n ∉ visited := by simp at hc; exact hc.2
        exact unvisited_pos g visited n (mem_clientIds_of_lookup hl) hnv
  | case5 visited n rest hc node hl hm ih =>
    simp only [searchModalTree, dif_neg hc]
    split
    · next heq => rw [hl] at heq; cases heq
    · next node2 heq =>
        rw [hl] at heq
        injection heq with heq2
        subst heq2
        rw [if_neg hm]
        have hnv : n ∉ visited := by simp at hc; exact hc.2
        have hlt := unvisited_cons_lt g visited n (mem_clientIds_of_lookup hl) hnv
        simp only []
        omega

/-- The unvisited count never exceeds the size of the entity table. -/
theorem unvisited_le_length (g : TGraph) (visited : List Nat) :
    unvisited g visited ≤ List.length g := by
  calc unvisited g visited ≤ (clientIds g).toFinset.card :=
        Finset.card_le_card (Finset.sdiff_subset)
    _ ≤ (clientIds g).length := List.toFinset_card_le _
    _ = List.length g := by simp [clientIds]

/-- C1: the stacking layer computed by calcLayer is exactly the first matching
case of the fixed precedence — iconic gives Layer_Icon; else desktop type
gives Layer_Desktop; else fullscreen gives Layer_Fullscreen; else the below
flag gives Layer_Below; else the above flag gives Layer_Above; else a dock or
toolbar always-on-top type gives Layer_Top; else Layer_Normal — the result is
always one of the 8 fixed layers, and it depends only on
(fullscreen, above, below, iconic, type), never on the prior layer value or
call order. -/
theorem C1_calcLayer_pure_precedence (c d : Client)
    (h1 : c._fullscreen = d._fullscreen) (h2 : c._above = d._above)
    (h3 : c._below = d._below) (h4 : c._iconic = d._iconic)
    (h5 : c._type = d._type) :
    calcLayer c =
      (if c._iconic then StackLayer.Layer_Icon
       else if c._type = WindowType.Type_Desktop then StackLayer.Layer_Desktop
       else if c._fullscreen then StackLayer.Layer_Fullscreen
       else if c._below then StackLayer.Layer_Below
       else if c._above then StackLayer.Layer_Above
       else if c._type = WindowType.Type_Dock ∨ c._type = WindowType.Type_Toolbar
         then StackLayer.Layer_Top
       else StackLayer.Layer_Normal) ∧
    calcLayer c ∈ [StackLayer.Layer_Icon, StackLayer.Layer_Desktop,
      StackLayer.Layer_Below, StackLayer.Layer_Normal, StackLayer.Layer_Above,
      StackLayer.Layer_Top, StackLayer.Layer_Fullscreen,
      StackLayer.Layer_Internal] ∧
    calcLayer c = calcLayer d := by
  refine ⟨rfl, ?_, ?_⟩
  · cases hc : calcLayer c <;> simp
  · simp only [calcLayer, h1, h2, h3, h4, h5]

/-- Witness for C1: two concrete clients that agree on the five inputs but
differ in prior layer value and title get the same computed layer, namely
Layer_Fullscreen. -/
theorem C1_calcLayer_pure_precedence_witness :
    calcLayer layerWitnessA = calcLayer layerWitnessB ∧
    calcLayer layerWitnessA = StackLayer.Layer_Fullscreen :=
  ⟨(C1_calcLayer_pure_precedence layerWitnessA layerWitnessB
      rfl rfl rfl rfl rfl).2.2, by decide⟩

/-- C4: applying the extended-state change with action Toggle twice in
succession to the same attribute returns the boolean flag of that attribute
to its original value, for every attribute and every starting state. -/
theorem C4_toggle_twice_involutive (c : Client) (p : StateAtom) :
    getStateFlag
      (setState (setState c StateAction.State_Toggle p StateAtom.atom_none)
        StateAction.State_Toggle p StateAtom.atom_none) p =
    getStateFlag c p := by
  cases p <;> simp [setState, applyStateAtom, applyAction, getStateFlag]

/-- C5: the modal-descendant search terminates with a deterministic result on
every input relationship graph, expanding each distinct reachable client at
most once (so at most the size of the entity table in total), including on
graphs where the transient references form a cycle: on the concrete two-cycle
it finds the modal client, and on the modal-free two-cycle it returns nothing
instead of looping. -/
theorem C5_searchModalTree_terminates :
    (∀ (g : TGraph) (root : Nat), searchModalVisits g root ≤ List.length g) ∧
    findModalChild cycGraphModal 1 = some 2 ∧
    findModalChild cycGraphPlain 1 = none := by
  refine ⟨?_, ?_, ?_⟩
  · intro g root
    unfold searchModalVisits
    cases hl : lookupClient g root with
    | none => simp
    | some node =>
      calc (searchModalTree g root [root] node.transients).snd
          ≤ unvisited g [root] :=
            searchModalTree_visits_le g root [root] node.transients
        _ ≤ List.length g := unvisited_le_length g [root]
  · simp [findModalChild, cycGraphModal, lookupClient, searchModalTree]
  · simp [findModalChild, cycGraphPlain, lookupClient, searchModalTree]

/-- C7: an extended-state request naming an unrecognized attribute leaves
every field of the client unchanged, for any action code and in any state
whose stored layer is consistent (the spec invariant: the layer is never
persisted independently of its inputs); the operation has no error channel,
so nothing is surfaced to the caller. -/
theorem C7_unknown_atom_ignored (c : Client) (a : StateAction) (n m : Nat)
    (hlayer : c._layer = calcLayer c) :
    setState c a (StateAtom.atom_other n) StateAtom.atom_none = c ∧
    setState c a (StateAtom.atom_other n) (StateAtom.atom_other m) = c := by
  constructor <;> · simp only [setState, applyStateAtom]; rw [← hlayer]

/-- Witness for C7: on a concrete consistent client, an Add request for an
unknown atom is the identity. -/
theorem C7_unknown_atom_ignored_witness :
    baseClient._layer = calcLayer baseClient ∧
    setState baseClient StateAction.State_Add (StateAtom.atom_other 99)
      StateAtom.atom_none = baseClient :=
  ⟨by decide,
   (C7_unknown_atom_ignored baseClient StateAction.State_Add 99 0 (by decide)).1⟩

/-- C10: the accessor iconTitle returns the normal window title — the same
string as title — and never the separately stored `_icon_title` field, even
though updateIconTitle maintains that distinct field from the icon-title
property. -/
theorem C10_iconTitle_returns_title (c : Client) (prop : String) :
    Client.iconTitle c = Client.title c ∧
    Client.iconTitle (updateIconTitle c prop) = Client.title c ∧
    (updateIconTitle c prop)._icon_title = prop :=
  ⟨rfl, rfl, rfl⟩

/-- C6: the focus attempt returns false and leaves the client state unchanged
(and sends no notification) whenever the client cannot accept input focus or
a modal descendant exists; when it succeeds it returns true, sets the focused
flag (changing nothing else), and notifies the application exactly when the
application requested focus-notify. -/
theorem C6_focus_redirect_or_success (g : TGraph) (self : Nat) (c : Client) :
    ((c._can_focus = false ∨ (findModalChild g self).isSome = true) →
      focus g self c = { ok := false, client := c, notified := false }) ∧
    (c._can_focus = true → findModalChild g self = none →
      (focus g self c).ok = true ∧
      (focus g self c).client = { c with _focused := true } ∧
      (focus g self c).notified = c._focus_notify) := by
  constructor
  · intro hfail
    have hcond : (!c._can_focus || (findModalChild g self).isSome) = true := by
      rcases hfail with hcf | hms
      · simp [hcf]
      · simp [hms]
    simp [focus, hcond]
  · intro hcf hnm
    have hcond : (!c._can_focus || (findModalChild g self).isSome) = false := by
      simp [hcf, hnm]
    simp [focus, hcond]

/-- Witness for C6: on the cyclic graph with a modal descendant the attempt
on client 1 fails without state change; on the empty graph the attempt on the
focusable concrete client succeeds and notifies (the client requested
focus-notify). -/
theorem C6_focus_redirect_or_success_witness :
    focus cycGraphModal 1 baseClient =
      { ok := false, client := baseClient, notified := false } ∧
    (focus [] 1 baseClient).ok = true ∧
    (focus [] 1 baseClient).notified = true := by
  have hm : findModalChild cycGraphModal 1 = some 2 := by
    simp [findModalChild, cycGraphModal, lookupClient, searchModalTree]
  refine ⟨(C6_focus_redirect_or_success cycGraphModal 1 baseClient).1
      (Or.inr (by rw [hm]; rfl)), ?_, ?_⟩
  · exact ((C6_focus_redirect_or_success ([] : TGraph) 1 baseClient).2 rfl rfl).1
  · rw [((C6_focus_redirect_or_success ([] : TGraph) 1 baseClient).2 rfl rfl).2.2]
    rfl

/-- Snapping down behaves as stated whenever the increment is positive and
the lower bound is itself base plus a multiple of the increment: the result
stays in [m, v], differs from base by an exact multiple of the increment, and
is the nearest such multiple below the input. -/
theorem snapDown_spec (b i m v : Int) (hi : 0 < i) (hm : (m - b) % i = 0)
    (hv : m ≤ v) :
    m ≤ snapDown b i v ∧ snapDown b i v ≤ v ∧
    (snapDown b i v - b) % i = 0 ∧ v < snapDown b i v + i := by
  unfold snapDown
  have h1 : (v - b) / i * i ≤ v - b := Int.ediv_mul_le (v - b) (ne_of_gt hi)
  have h2 : v - b < ((v - b) / i + 1) * i := Int.lt_ediv_add_one_mul_self (v - b) hi
  rw [add_mul, one_mul] at h2
  have h3 : (m - b) / i * i = m - b := Int.ediv_mul_cancel_of_emod_eq_zero hm
  have h4 : (m - b) / i ≤ (v - b) / i := Int.ediv_le_ediv hi (by omega)
  have h5 : (m - b) / i * i ≤ (v - b) / i * i :=
    mul_le_mul_of_nonneg_right h4 (le_of_lt hi)
  have h6 : (b + (v - b) / i * i - b) % i = 0 := by
    have he : b + (v - b) / i * i - b = (v - b) / i * i := by ring
    rw [he]
    exact Int.mul_emod_left _ _
  exact ⟨by linarith, by linarith, h6, by linarith⟩

/-- C2: for every valid constraint triple — positive size increments, minimum
at most maximum, and a minimum reachable from the base by whole increments —
and every requested width and height, with no aspect-ratio range configured,
the size produced by resize and internal_resize lies within [min, max] on
each axis, the output minus the base size is an exact multiple of the size
increment on each axis, and the output is the clamped request snapped down to
the nearest such multiple. -/
theorem C2_resize_within_bounds_and_increments (c : Client) (anchor : Corner)
    (w h : Int)
    (hiw : 0 < c._size_inc.width) (hih : 0 < c._size_inc.height)
    (hmw : c._min_size.width ≤ c._max_size.width)
    (hmh : c._min_size.height ≤ c._max_size.height)
    (hdw : (c._min_size.width - c._base_size.width) % c._size_inc.width = 0)
    (hdh : (c._min_size.height - c._base_size.height) % c._size_inc.height = 0)
    (hr1 : c._min_ratio = 0) (hr2 : c._max_ratio = 0) :
    (c._min_size.width ≤ (resize c anchor w h)._area.width ∧
     (resize c anchor w h)._area.width ≤ c._max_size.width ∧
     ((resize c anchor w h)._area.width - c._base_size.width) % c._size_inc.width = 0 ∧
     (resize c anchor w h)._area.width ≤ max c._min_size.width (min c._max_size.width w) ∧
     max c._min_size.width (min c._max_size.width w) <
       (resize c anchor w h)._area.width + c._size_inc.width) ∧
    (c._min_size.height ≤ (resize c anchor w h)._area.height ∧
     (resize c anchor w h)._area.height ≤ c._max_size.height ∧
     ((resize c anchor w h)._area.height - c._base_size.height) % c._size_inc.height = 0 ∧
     (resize c anchor w h)._area.height ≤ max c._min_size.height (min c._max_size.height h) ∧
     max c._min_size.height (min c._max_size.height h) <
       (resize c anchor w h)._area.height + c._size_inc.height) := by
  have houtw : (resize c anchor w h)._area.width =
      snapDown c._base_size.width c._size_inc.width
        (max c._min_size.width (min c._max_size.width w)) := by
    simp [resize, internal_resize, constrainSize, applyAspect, hr1, hr2]
  have houth : (resize c anchor w h)._area.height =
      snapDown c._base_size.height c._size_inc.height
        (max c._min_size.height (min c._max_size.height h)) := by
    simp [resize, internal_resize, constrainSize, applyAspect, hr1, hr2]
  have hW := snapDown_spec c._base_size.width c._size_inc.width c._min_size.width
      (max c._min_size.width (min c._max_size.width w)) hiw hdw (le_max_left _ _)
  have hH := snapDown_spec c._base_size.height c._size_inc.height c._min_size.height
      (max c._min_size.height (min c._max_size.height h)) hih hdh (le_max_left _ _)
  have hvw : max c._min_size.width (min c._max_size.width w) ≤ c._max_size.width :=
    max_le hmw (min_le_left _ _)
  have hvh : max c._min_size.height (min c._max_size.height h) ≤ c._max_size.height :=
    max_le hmh (min_le_left _ _)
  rw [houtw, houth]
  exact ⟨⟨hW.1, le_trans hW.2.1 hvw, hW.2.2.1, hW.2.1, hW.2.2.2⟩,
         ⟨hH.1, le_trans hH.2.1 hvh, hH.2.2.1, hH.2.1, hH.2.2.2⟩⟩

/-- Witness for C2: the scenario of spec section 8 — min 100 by 50, increment
10 by 10, base 0 by 0, request (117, 73) — produces (110, 70), within bounds
and on the increment grid. -/
theorem C2_resize_within_bounds_and_increments_witness :
    (resize baseClient Corner.TopLeft 117 73)._area.width = 110 ∧
    (resize baseClient Corner.TopLeft 117 73)._area.height = 70 ∧
    (100 : Int) ≤ (resize baseClient Corner.TopLeft 117 73)._area.width ∧
    ((resize baseClient Corner.TopLeft 117 73)._area.width - 0) % 10 = 0 := by
  refine ⟨by decide, by decide, ?_, ?_⟩
  · exact (C2_resize_within_bounds_and_increments baseClient Corner.TopLeft 117 73
      (by decide) (by decide) (by decide) (by decide) (by decide) (by decide)
      rfl rfl).1.1
  · exact (C2_resize_within_bounds_and_increments baseClient Corner.TopLeft 117 73
      (by decide) (by decide) (by decide) (by decide) (by decide) (by decide)
      rfl rfl).1.2.2.1

/-- C3: from any starting rectangle with neither axis maximized, maximizing
both axes with save-area and then unmaximizing both restores the exact
pre-maximize rectangle, provided the usable screen area (the strut
configuration) is unchanged between the calls; and when the two axes are
un-maximized by two separate calls, each call restores only its own axis of
the saved rectangle: the horizontal call restores the x position and width
while leaving the vertical position, height and maximized-vertical flag at
their maximized values, and the subsequent vertical call completes the exact
restoration. -/
theorem C3_maximize_unmaximize_restores (c : Client) (u : Rect) (sv sv2 : Bool)
    (hH : c._max_horz = false) (hV : c._max_vert = false) :
    (maximize (maximize c true 0 true u) false 0 sv u)._area = c._area ∧
    (maximize (maximize c true 0 true u) false 1 sv u)._area.x = c._area.x ∧
    (maximize (maximize c true 0 true u) false 1 sv u)._area.width = c._area.width ∧
    (maximize (maximize c true 0 true u) false 1 sv u)._area.y = u.y ∧
    (maximize (maximize c true 0 true u) false 1 sv u)._area.height = u.height ∧
    (maximize (maximize c true 0 true u) false 1 sv u)._max_horz = false ∧
    (maximize (maximize c true 0 true u) false 1 sv u)._max_vert = true ∧
    (maximize (maximize (maximize c true 0 true u) false 1 sv u) false 2 sv2 u)._area
      = c._area := by
  simp [maximize, hH, hV]

/-- Witness for C3: the concrete unmaximized client round-trips through
maximize and unmaximize on the concrete usable area, both in one call and
axis by axis, and after the horizontal-only unmaximize its vertical position
is still the maximized one. -/
theorem C3_maximize_unmaximize_restores_witness :
    baseClient._max_horz = false ∧
    (maximize (maximize baseClient true 0 true usableArea) false 0 true
        usableArea)._area = baseClient._area ∧
    (maximize (maximize baseClient true 0 true usableArea) false 1 true
        usableArea)._area.y = usableArea.y ∧
    (maximize (maximize baseClient true 0 true usableArea) false 1 true
        usableArea)._max_vert = true ∧
    (maximize (maximize (maximize baseClient true 0 true usableArea) false 1 true
        usableArea) false 2 false usableArea)._area = baseClient._area :=
  ⟨rfl,
   (C3_maximize_unmaximize_restores baseClient usableArea true false rfl rfl).1,
   (C3_maximize_unmaximize_restores baseClient usableArea true false rfl rfl).2.2.2.1,
   (C3_maximize_unmaximize_restores baseClient usableArea true false rfl rfl).2.2.2.2.2.2.1,
   (C3_maximize_unmaximize_restores baseClient usableArea true false rfl rfl).2.2.2.2.2.2.2⟩

/-- Counterexample for C8 as stated: the client `iconicShadedClient` is
shaded and vertically maximized, yet after the extended-state Add-fullscreen
request its layer is Layer_Icon, not Layer_Fullscreen, because it is also
iconified and the iconic case precedes the fullscreen case in the layer
precedence (C1); the flags themselves do become and stay as claimed. -/
theorem C8_counterexample_iconic_layer :
    iconicShadedClient._shaded = true ∧
    iconicShadedClient._max_vert = true ∧
    (setState iconicShadedClient StateAction.State_Add StateAtom.atom_fullscreen
        StateAtom.atom_none)._fullscreen = true ∧
    (setState iconicShadedClient StateAction.State_Add StateAtom.atom_fullscreen
        StateAtom.atom_none)._layer = StackLayer.Layer_Icon ∧
    StackLayer.Layer_Icon ≠ StackLayer.Layer_Fullscreen := by
  decide

/-- C8 amended: entering fullscreen — via the extended-state Add request or
via the fullscreen operation — sets the fullscreen flag and leaves every
other boolean state flag, in particular shaded and maximized-vertical,
unchanged; and provided the client is not iconified and is not a desktop-type
window (whose layers take precedence in the fixed layer order), the layer
becomes Layer_Fullscreen (for the fullscreen operation, when the flag was
previously clear, an actual entry rather than its no-op guard). -/
theorem C8_fullscreen_enter_amended (c : Client) (sv : Bool) (scr : Rect)
    (hsh : c._shaded = true) (hmv : c._max_vert = true)
    (hic : c._iconic = false) (hty : c._type ≠ WindowType.Type_Desktop) :
    (setState c StateAction.State_Add StateAtom.atom_fullscreen
        StateAtom.atom_none)._fullscreen = true ∧
    (setState c StateAction.State_Add StateAtom.atom_fullscreen
        StateAtom.atom_none)._shaded = true ∧
    (setState c StateAction.State_Add StateAtom.atom_fullscreen
        StateAtom.atom_none)._max_vert = true ∧
    (setState c StateAction.State_Add StateAtom.atom_fullscreen
        StateAtom.atom_none)._urgent = c._urgent ∧
    (setState c StateAction.State_Add StateAtom.atom_fullscreen
        StateAtom.atom_none)._modal = c._modal ∧
    (setState c StateAction.State_Add StateAtom.atom_fullscreen
        StateAtom.atom_none)._iconic = c._iconic ∧
    (setState c StateAction.State_Add StateAtom.atom_fullscreen
        StateAtom.atom_none)._max_horz = c._max_horz ∧
    (setState c StateAction.State_Add StateAtom.atom_fullscreen
        StateAtom.atom_none)._skip_pager = c._skip_pager ∧
    (setState c StateAction.State_Add StateAtom.atom_fullscreen
        StateAtom.atom_none)._skip_taskbar = c._skip_taskbar ∧
    (setState c StateAction.State_Add StateAtom.atom_fullscreen
        StateAtom.atom_none)._above = c._above ∧
    (setState c StateAction.State_Add StateAtom.atom_fullscreen
        StateAtom.atom_none)._below = c._below ∧
    (setState c StateAction.State_Add StateAtom.atom_fullscreen
        StateAtom.atom_none)._layer = StackLayer.Layer_Fullscreen ∧
    (fullscreen_set c true sv scr)._fullscreen = true ∧
    (fullscreen_set c true sv scr)._shaded = true ∧
    (fullscreen_set c true sv scr)._max_vert = true ∧
    (fullscreen_set c true sv scr)._urgent = c._urgent ∧
    (fullscreen_set c true sv scr)._modal = c._modal ∧
    (fullscreen_set c true sv scr)._iconic = c._iconic ∧
    (fullscreen_set c true sv scr)._max_horz = c._max_horz ∧
    (fullscreen_set c true sv scr)._skip_pager = c._skip_pager ∧
    (fullscreen_set c true sv scr)._skip_taskbar = c._skip_taskbar ∧
    (fullscreen_set c true sv scr)._above = c._above ∧
    (fullscreen_set c true sv scr)._below = c._below ∧
    (c._fullscreen = false →
      (fullscreen_set c true sv scr)._layer = StackLayer.Layer_Fullscreen) := by
  by_cases hfs : c._fullscreen
  · simp [setState, applyStateAtom, applyAction, fullscreen_set, calcLayer,
      hsh, hmv, hic, hty, hfs]
  · cases sv <;>
      simp [setState, applyStateAtom, applyAction, fullscreen_set, calcLayer,
        hsh, hmv, hic, hty, hfs]

/-- Witness for C8 amended: the concrete shaded, vertically maximized,
non-iconified normal window enters fullscreen with layer Layer_Fullscreen and
keeps both flags, both via the extended-state Add request and via the
fullscreen operation. -/
theorem C8_fullscreen_enter_amended_witness :
    (setState shadedMaxVertClient StateAction.State_Add StateAtom.atom_fullscreen
        StateAtom.atom_none)._fullscreen = true ∧
    (setState shadedMaxVertClient StateAction.State_Add StateAtom.atom_fullscreen
        StateAtom.atom_none)._shaded = true ∧
    (setState shadedMaxVertClient StateAction.State_Add StateAtom.atom_fullscreen
        StateAtom.atom_none)._max_vert = true ∧
    (setState shadedMaxVertClient StateAction.State_Add StateAtom.atom_fullscreen
        StateAtom.atom_none)._layer = StackLayer.Layer_Fullscreen ∧
    (fullscreen_set shadedMaxVertClient true true usableArea)._fullscreen = true ∧
    (fullscreen_set shadedMaxVertClient true true usableArea)._shaded = true ∧
    (fullscreen_set shadedMaxVertClient true true usableArea)._max_vert = true ∧
    (fullscreen_set shadedMaxVertClient true true usableArea)._layer
      = StackLayer.Layer_Fullscreen := by
  obtain ⟨h1, h2, h3, _, _, _, _, _, _, _, _, h12, h13, h14, h15, _, _, _, _, _,
      _, _, _, h24⟩ :=
    C8_fullscreen_enter_amended shadedMaxVertClient true usableArea
      rfl rfl rfl (by decide)
  exact ⟨h1, h2, h3, h12, h13, h14, h15, h24 rfl⟩

/-- C9: whenever the minimum size exceeds the maximum size on either axis,
recomputing the functions mask with setupDecorAndFunctions produces a mask
that does not contain Func_Resize: the window is not advertised as
resizable. -/
theorem C9_min_gt_max_not_resizable (c : Client)
    (hbad : c._max_size.width < c._min_size.width ∨
            c._max_size.height < c._min_size.height) :
    (setupDecorAndFunctions c)._functions &&& Func_Resize = 0 := by
  have hnr : decide (c._max_size.width < c._min_size.width ∨
      c._max_size.height < c._min_size.height) = true := decide_eq_true hbad
  simp only [setupDecorAndFunctions, setupFunctions, hnr, Bool.not_true,
    Bool.and_false, if_false]
  split_ifs <;> first | rfl | contradiction

/-- Witness for C9: the concrete client whose minimum width 300 exceeds its
maximum width 200 gets a functions mask without the resize bit. -/
theorem C9_min_gt_max_not_resizable_witness :
    badSizeClient._max_size.width < badSizeClient._min_size.width ∧
    (setupDecorAndFunctions badSizeClient)._functions &&& Func_Resize = 0 :=
  ⟨by decide, C9_min_gt_max_not_resizable badSizeClient (Or.inl (by decide))⟩

end Openbox
